import Mathlib

/-!
Verification of the row-validation core of the EtlProject repository
(`src/validate_app.py` together with the schema `src/validator.py`).

The embedding models:
  * the cell values a pandas row dictionary can hold (strings, ints, floats;
    floats are modelled exactly as rationals — no claim depends on binary
    float rounding, infinities or NaN, and numeric-string parsing is modelled
    for plain decimal literals, not Python's underscore/inf/nan forms);
  * pydantic-v1 validation of the `AdPerformanceRecord` model (the source's
    formatter matches pydantic-v1 diagnostic texts such as "field required"
    and "value is not a valid float"): per-field checking in declaration
    order, int/float/str coercion, the `ge=0.0` constraint on Amount_spent,
    `Optional[Union[int, float]]` fields, and `extra = "ignore"`;
  * `format_pydantic_error`, which maps one error dictionary to one
    Portuguese sentence;
  * `validate_data`, the batch runner that folds over the rows and returns
    the pair (valid_records, error_report_list).

A row is an association list (Python dicts have unique keys; lookup takes the
first match).  A missing field is an absent key.  A row whose processing
raises a non-ValidationError exception (the `except Exception` branch of the
runner) is modelled by the `RawRow.fault` constructor carrying the exception
text, since no such exception can arise inside the pure embedding itself.
-/

/-- A cell value as it appears in a pandas row dictionary. -/
inductive Value where
  | VStr : String → Value
  | VInt : Int → Value
  | VFloat : Rat → Value
deriving Repr, DecidableEq

/-- A raw row: the dictionary produced by `row.to_dict()`. -/
abbrev Row := List (String × Value)

/-- `dict.get(k)` — the first binding of `k`, if any. -/
def rowGet? (row : Row) (k : String) : Option Value :=
  (row.find? (fun p => p.1 == k)).map (fun p => p.2)

/-- `dict.get(k, d)` / `Series.get(k, d)` — lookup with a default. -/
def rowGetD (row : Row) (k : String) (d : Value) : Value :=
  (rowGet? row k).getD d

/-- Does `pre` start `l`?  (model of `str.startswith` on character lists). -/
def listStarts : List Char → List Char → Bool
  | [], _ => true
  | _ :: _, [] => false
  | a :: as, b :: bs => a == b && listStarts as bs

/-- Helper for `strContains`: does `pat` occur in the haystack? -/
def substrAux (pat : List Char) : List Char → Bool
  | [] => pat.isEmpty
  | c :: t => listStarts pat (c :: t) || substrAux pat t

/-- Python's `pat in s` substring test. -/
def strContains (s pat : String) : Bool :=
  substrAux pat.data s.data

/-- Python's `str.capitalize()`: first character uppercased, the rest
lowercased (ASCII; the pydantic diagnostics it is applied to are ASCII). -/
def pyCapitalize (s : String) : String :=
  match s.data with
  | [] => ""
  | c :: cs => String.mk (c.toUpper :: cs.map Char.toLower)

/-- Numeric value of a digit list (most significant first). -/
def digitsVal (cs : List Char) : Nat :=
  cs.foldl (fun a c => a * 10 + (c.toNat - 48)) 0

/-- All characters are decimal digits. -/
def allDigits (cs : List Char) : Bool :=
  cs.all Char.isDigit

/-- ASCII whitespace, as Python's `str.strip()` removes around numeric
literals. -/
def isSpaceChar (c : Char) : Bool :=
  c = ' ' || c = '\t' || c = '\n' || c = '\r'

/-- Python's `str.strip()` on a character list: drop whitespace from both
ends. -/
def pyStrip (cs : List Char) : List Char :=
  ((cs.dropWhile isSpaceChar).reverse.dropWhile isSpaceChar).reverse

/-- Consume an optional leading sign; returns (isNegative, rest). -/
def parseSign : List Char → Bool × List Char
  | '+' :: rest => (false, rest)
  | '-' :: rest => (true, rest)
  | cs => (false, cs)

/-- Python's `int(s)` on a stripped string: optional sign then one or more
digits (underscore separators are outside the model). -/
def parseIntStr (s : String) : Option Int :=
  let cs := pyStrip s.data
  let sr := parseSign cs
  if sr.2.isEmpty then none
  else if allDigits sr.2 then
    some (if sr.1 then -(digitsVal sr.2 : Int) else (digitsVal sr.2 : Int))
  else none

/-- Mantissa of a decimal literal: `digits`, `digits.digits`, `.digits` or
`digits.` with at least one digit overall. -/
def parseMantissa (cs : List Char) : Option Rat :=
  let ip := cs.takeWhile (fun c => c ≠ '.')
  let rest := cs.dropWhile (fun c => c ≠ '.')
  match rest with
  | [] =>
    if ip.isEmpty then none
    else if allDigits ip then some ((digitsVal ip : Int) : Rat) else none
  | _ :: fp =>
    if ip.isEmpty && fp.isEmpty then none
    else if allDigits ip && allDigits fp && !fp.any (fun c => c = '.') then
      some (((digitsVal (ip ++ fp) : Int) : Rat) / (10 : Rat) ^ fp.length)
    else none

/-- Exponent part after `e`/`E`: optional sign then one or more digits. -/
def parseExp (cs : List Char) : Option Int :=
  let sr := parseSign cs
  if sr.2.isEmpty then none
  else if allDigits sr.2 then
    some (if sr.1 then -(digitsVal sr.2 : Int) else (digitsVal sr.2 : Int))
  else none

/-- Python's `float(s)` on decimal literals: stripped, optional sign,
mantissa, optional exponent ("inf"/"nan" forms are outside the model). -/
def parseFloatStr (s : String) : Option Rat :=
  let cs := pyStrip s.data
  let sr := parseSign cs
  let mant := sr.2.takeWhile (fun c => c ≠ 'e' && c ≠ 'E')
  let erest := sr.2.dropWhile (fun c => c ≠ 'e' && c ≠ 'E')
  let expVal : Option Int :=
    match erest with
    | [] => some 0
    | _ :: ecs => parseExp ecs
  match parseMantissa mant, expVal with
  | some m, some ex =>
    some (if sr.1 then -(m * (10 : Rat) ^ ex) else m * (10 : Rat) ^ ex)
  | _, _ => none

/-- pydantic-v1 `int_validator`: ints pass, floats are truncated toward
zero (`int(v)`), strings are parsed with `int(s)`. -/
def intCoerce : Value → Option Int
  | .VInt n => some n
  | .VFloat q => some (q.num.tdiv (q.den : Int))
  | .VStr s => parseIntStr s

/-- pydantic-v1 `float_validator`: floats pass, ints are widened, strings
are parsed with `float(s)`. -/
def floatCoerce : Value → Option Rat
  | .VFloat q => some q
  | .VInt n => some ((n : Rat))
  | .VStr s => parseFloatStr s

/-- pydantic-v1 `str_validator`: strings pass unchanged; ints and floats are
coerced with `str(v)` (so on this value space it never fails).  The float
rendering is a plain decimal stand-in for Python's repr; no claim depends
on it. -/
def strCoerce : Value → String
  | .VStr s => s
  | .VInt n => toString n
  | .VFloat q => toString q.num ++ (if q.den = 1 then ".0" else "/" ++ toString q.den)

/-- One entry of pydantic's `e.errors()`: `loc[0]`, `msg` and `type`. -/
structure PydanticError where
  loc : String
  msg : String
  typ : String
deriving Repr, DecidableEq

/-- The declared type of a schema field. -/
inductive FieldType where
  | int : FieldType
  | str : FieldType
  | float : FieldType
  | intOrFloat : FieldType
deriving Repr, DecidableEq

/-- One field contract of the `AdPerformanceRecord` model: name, whether it
is required (`Field(...)`) or optional (`Field(None)`), declared type, and
whether the `ge=0.0` constraint applies. -/
structure FieldSpec where
  name : String
  required : Bool
  ftype : FieldType
  geZero : Bool
deriving Repr, DecidableEq

/-- The fields of `AdPerformanceRecord` in declaration order
(`src/validator.py`). -/
def AdPerformanceRecordFields : List FieldSpec :=
  [⟨"Organizador", true, .int, false⟩,
   ⟨"Ano_Mes", true, .str, false⟩,
   ⟨"Dia_da_Semana", true, .str, false⟩,
   ⟨"Tipo_Dia", true, .str, false⟩,
   ⟨"Objetivo", true, .str, false⟩,
   ⟨"Date", true, .str, false⟩,
   ⟨"AdSet_name", true, .str, false⟩,
   ⟨"Amount_spent", true, .float, true⟩,
   ⟨"Link_clicks", false, .intOrFloat, false⟩,
   ⟨"Impressions", false, .intOrFloat, false⟩,
   ⟨"Conversions", false, .intOrFloat, false⟩,
   ⟨"Segmentação", false, .str, false⟩,
   ⟨"Tipo_de_Anúncio", true, .str, false⟩,
   ⟨"Fase", true, .str, false⟩]

/-- pydantic-v1 validation of one field: a missing required field yields the
`value_error.missing` error; a present value is coerced per the declared
type (a `Union[int, float]` tries int first, then float, and on failure
reports one error per union member); after float coercion the `ge=0.0`
constraint is checked.  `extra = "ignore"` means keys outside the schema
are never looked at. -/
def validateField (f : FieldSpec) (row : Row) : List PydanticError :=
  match rowGet? row f.name with
  | none =>
    if f.required then [⟨f.name, "field required", "value_error.missing"⟩] else []
  | some v =>
    match f.ftype with
    | .int =>
      match intCoerce v with
      | some _ => []
      | none => [⟨f.name, "value is not a valid integer", "type_error.integer"⟩]
    | .str => []
    | .float =>
      match floatCoerce v with
      | none => [⟨f.name, "value is not a valid float", "type_error.float"⟩]
      | some q =>
        if f.geZero && q < 0 then
          [⟨f.name, "ensure this value is greater than or equal to 0.0",
            "value_error.number.not_ge"⟩]
        else []
    | .intOrFloat =>
      match intCoerce v with
      | some _ => []
      | none =>
        match floatCoerce v with
        | some _ => []
        | none =>
          [⟨f.name, "value is not a valid integer", "type_error.integer"⟩,
           ⟨f.name, "value is not a valid float", "type_error.float"⟩]

/-- `AdPerformanceRecord(**record_dict)`: the collected `e.errors()` list,
fields checked in declaration order; the empty list means validation
succeeded. -/
def AdPerformanceRecordErrors (row : Row) : List PydanticError :=
  AdPerformanceRecordFields.flatMap (fun f => validateField f row)

/-- `format_pydantic_error` (src/validate_app.py): maps one pydantic error
dictionary to a Portuguese sentence by substring-matching the diagnostic. -/
def format_pydantic_error (e : PydanticError) : String :=
  let field := e.loc
  let msg := e.msg
  if strContains msg "field required" then
    "O campo '" ++ field ++ "' está faltando ou vazio."
  else if strContains msg "float" &&
      (strContains msg "not a valid float" || strContains msg "value is not a valid float") then
    "O campo '" ++ field ++ "' deve ser um número decimal (ex: 100.50)."
  else if strContains msg "int" && strContains msg "not a valid integer" then
    "O campo '" ++ field ++ "' deve ser um número inteiro (ex: 100)."
  else
    "Campo '" ++ field ++ "': " ++ pyCapitalize msg ++ "."

/-- One row of `error_report_list` (field names follow the dictionary keys
built in `validate_data`). -/
structure ErrorEntry where
  Linha_CSV : Nat
  AdSet_Nome_Aprox : Value
  Primeiro_Erro_Detectado : String
  Total_Erros_Nesta_Linha : Nat
deriving Repr, DecidableEq

/-- An input row as the runner's loop body sees it: `normal` rows reach
pydantic validation; `fault` rows are rows whose processing raises a
non-ValidationError exception with the given text (`except Exception`
branch) — the `Row` component is what `row.get` still sees. -/
inductive RawRow where
  | normal : Row → RawRow
  | fault : Row → String → RawRow
deriving Repr, DecidableEq

/-- The body of the `for index, row in df.iterrows()` loop for one row:
success appends `record_dict` itself (the raw dictionary — the validated
pydantic object is discarded); a ValidationError produces one report entry
from the formatted error list; any other exception produces the synthetic
"Erro Geral" entry with count 1.  Both error branches label the row with
`get('AdSet_name', 'N/A')`. -/
def processRow (index : Nat) (r : RawRow) : Except ErrorEntry Row :=
  match r with
  | .normal row =>
    match AdPerformanceRecordErrors row with
    | [] => .ok row
    | e :: es =>
      .error ⟨index + 2, rowGetD row "AdSet_name" (.VStr "N/A"),
        format_pydantic_error e, (e :: es).length⟩
  | .fault row msg =>
    .error ⟨index + 2, rowGetD row "AdSet_name" (.VStr "N/A"),
      "Erro Geral: " ++ msg, 1⟩

/-- Loop of `validate_data`, carrying the pandas index of the next row;
appends at the tail exactly as the Python lists grow. -/
def validate_data_aux (i : Nat) : List RawRow → List Row × List ErrorEntry
  | [] => ([], [])
  | r :: rs =>
    let rest := validate_data_aux (i + 1) rs
    match processRow i r with
    | .ok rec => (rec :: rest.1, rest.2)
    | .error entry => (rest.1, entry :: rest.2)

/-- `validate_data(df)`: returns `(valid_records, error_report_list)`.
A freshly read CSV has the default RangeIndex, so the pandas index of the
i-th row is i. -/
def validate_data (rows : List RawRow) : List Row × List ErrorEntry :=
  validate_data_aux 0 rows

/-- The success component of a row outcome. -/
def okOption : Except ErrorEntry Row → Option Row
  | .ok r => some r
  | .error _ => none

/-- The failure component of a row outcome. -/
def errOption : Except ErrorEntry Row → Option ErrorEntry
  | .ok _ => none
  | .error e => some e

/-- The rows paired with their pandas indices, starting at `i`. -/
def enumFrom (i : Nat) : List RawRow → List (Nat × RawRow)
  | [] => []
  | r :: rs => (i, r) :: enumFrom (i + 1) rs

/-- `Modelled from the spec:` the Validated Record as section 4.2 of the
spec describes it — all schema fields present in the row, each carrying its
coerced value (numeric fields parsed, text fields as strings), fields not
declared in the schema dropped.  Defined only to compare the spec's words
with what the code actually appends. -/
def specValidatedRecord (row : Row) : Row :=
  AdPerformanceRecordFields.filterMap (fun f =>
    (rowGet? row f.name).bind (fun v =>
      match f.ftype with
      | .int => (intCoerce v).map (fun n => (f.name, Value.VInt n))
      | .str => some (f.name, Value.VStr (strCoerce v))
      | .float => (floatCoerce v).map (fun q => (f.name, Value.VFloat q))
      | .intOrFloat =>
        match intCoerce v with
        | some n => some (f.name, Value.VInt n)
        | none => (floatCoerce v).map (fun q => (f.name, Value.VFloat q))))

instance : DecidableEq (Except ErrorEntry Row)
  | .ok x, .ok y =>
    if h : x = y then isTrue (congrArg Except.ok h)
    else isFalse (fun hc => h (Except.ok.inj hc))
  | .ok _, .error _ => isFalse (fun hc => Except.noConfusion hc)
  | .error _, .ok _ => isFalse (fun hc => Except.noConfusion hc)
  | .error e, .error f =>
    if h : e = f then isTrue (congrArg Except.error h)
    else isFalse (fun hc => h (Except.error.inj hc))

/-- The loop splits the per-row outcomes into the two collections, in
iteration order. -/
theorem validate_data_aux_eq (rows : List RawRow) : ∀ i : Nat,
    validate_data_aux i rows =
      ((enumFrom i rows).filterMap (fun p => okOption (processRow p.1 p.2)),
       (enumFrom i rows).filterMap (fun p => errOption (processRow p.1 p.2))) := by
  induction rows with
  | nil => intro i; rfl
  | cons r rs ih =>
    intro i
    simp only [validate_data_aux, enumFrom, List.filterMap_cons, ih (i + 1)]
    cases h : processRow i r <;> simp [okOption, errOption, h]

/-- Each iteration of the loop grows exactly one of the two collections by
exactly one element. -/
theorem validate_data_aux_length (rows : List RawRow) : ∀ i : Nat,
    (validate_data_aux i rows).1.length + (validate_data_aux i rows).2.length
      = rows.length := by
  induction rows with
  | nil => intro i; rfl
  | cons r rs ih =>
    intro i
    have hrec := ih (i + 1)
    simp only [validate_data_aux]
    cases h : processRow i r <;> simp [h] <;> omega

/-- A fully conforming row (all required fields present and well-typed). -/
def goodRow : Row :=
  [("Organizador", .VInt 1), ("Ano_Mes", .VStr "2024 | Março"),
   ("Dia_da_Semana", .VStr "Sexta-Feira"), ("Tipo_Dia", .VStr "Dia útil"),
   ("Objetivo", .VStr "Leads"), ("Date", .VStr "2024-03-01"),
   ("AdSet_name", .VStr "X"), ("Amount_spent", .VFloat 10),
   ("Tipo_de_Anúncio", .VStr "Estático"), ("Fase", .VStr "Captação")]

/-- `goodRow` without its required `Date` field. -/
def dateMissingRow : Row :=
  [("Organizador", .VInt 1), ("Ano_Mes", .VStr "2024 | Março"),
   ("Dia_da_Semana", .VStr "Sexta-Feira"), ("Tipo_Dia", .VStr "Dia útil"),
   ("Objetivo", .VStr "Leads"),
   ("AdSet_name", .VStr "X"), ("Amount_spent", .VFloat 10),
   ("Tipo_de_Anúncio", .VStr "Estático"), ("Fase", .VStr "Captação")]

/-- `goodRow` with a negative `Amount_spent`. -/
def negAmountRow : Row :=
  [("Organizador", .VInt 1), ("Ano_Mes", .VStr "2024 | Março"),
   ("Dia_da_Semana", .VStr "Sexta-Feira"), ("Tipo_Dia", .VStr "Dia útil"),
   ("Objetivo", .VStr "Leads"), ("Date", .VStr "2024-03-01"),
   ("AdSet_name", .VStr "X"), ("Amount_spent", .VInt (-5)),
   ("Tipo_de_Anúncio", .VStr "Estático"), ("Fase", .VStr "Captação")]

/-- `goodRow` with the optional `Link_clicks` present but not numeric. -/
def badClicksRow : Row :=
  [("Organizador", .VInt 1), ("Ano_Mes", .VStr "2024 | Março"),
   ("Dia_da_Semana", .VStr "Sexta-Feira"), ("Tipo_Dia", .VStr "Dia útil"),
   ("Objetivo", .VStr "Leads"), ("Date", .VStr "2024-03-01"),
   ("AdSet_name", .VStr "X"), ("Amount_spent", .VFloat 10),
   ("Link_clicks", .VStr "abc"),
   ("Tipo_de_Anúncio", .VStr "Estático"), ("Fase", .VStr "Captação")]

/-- A row that validates, whose `Organizador` arrives as the string "12"
(coercible, not yet coerced) and which carries a key outside the schema. -/
def extraFieldRow : Row :=
  [("Organizador", .VStr "12"), ("Ano_Mes", .VStr "2024 | Março"),
   ("Dia_da_Semana", .VStr "Sexta-Feira"), ("Tipo_Dia", .VStr "Dia útil"),
   ("Objetivo", .VStr "Leads"), ("Date", .VStr "2024-03-01"),
   ("AdSet_name", .VStr "X"), ("Amount_spent", .VFloat 10),
   ("Tipo_de_Anúncio", .VStr "Estático"), ("Fase", .VStr "Captação"),
   ("Extra", .VStr "x")]

/-- C1: each input row yields exactly one outcome — one valid record or one
error-report entry, never both and never neither — so the lengths of the
two collections returned by `validate_data` sum to the number of input
rows. -/
theorem c1_row_outcome_completeness (rows : List RawRow) :
    (∀ (i : Nat) (r : RawRow),
      ((okOption (processRow i r)).isSome ∧ errOption (processRow i r) = none) ∨
      (okOption (processRow i r) = none ∧ (errOption (processRow i r)).isSome)) ∧
    (validate_data rows).1.length + (validate_data rows).2.length
      = rows.length := by
  refine ⟨fun i r => ?_, validate_data_aux_length rows 0⟩
  cases processRow i r with
  | ok rec => exact Or.inl ⟨rfl, rfl⟩
  | error entry => exact Or.inr ⟨rfl, rfl⟩

/-- C4: the batch runner never lets a per-row fault escape: a row whose
processing raises a non-ValidationError exception is converted into exactly
one synthetic entry with the generic "Erro Geral" message, violation count
1 and the usual `get('AdSet_name', 'N/A')` label; and the runner always
processes every row, returning complete collections whose sizes account
for all input rows. -/
theorem c4_no_fault_propagation :
    (∀ (i : Nat) (row : Row) (msg : String),
      processRow i (RawRow.fault row msg) =
        Except.error ⟨i + 2, rowGetD row "AdSet_name" (Value.VStr "N/A"),
          "Erro Geral: " ++ msg, 1⟩) ∧
    (∀ rows : List RawRow,
      (validate_data rows).1.length + (validate_data rows).2.length
        = rows.length) :=
  ⟨fun _ _ _ => rfl, fun rows => validate_data_aux_length rows 0⟩

/-- C9: both output collections preserve input row order: `validate_data`
equals the order-preserving split (`filterMap` over the index-enumerated
rows) of the per-row outcomes into successes and failures, so entries
derived from earlier rows precede entries derived from later rows in
whichever collection they land in. -/
theorem c9_order_preservation (rows : List RawRow) :
    (validate_data rows).1
        = (enumFrom 0 rows).filterMap (fun p => okOption (processRow p.1 p.2)) ∧
    (validate_data rows).2
        = (enumFrom 0 rows).filterMap (fun p => errOption (processRow p.1 p.2)) := by
  have h := validate_data_aux_eq rows 0
  exact ⟨congrArg Prod.fst h, congrArg Prod.snd h⟩

/-- C10: `validate_data` is deterministic — two runs on the same input
table produce identical valid-record and error-report collections. -/
theorem c10_deterministic (r1 r2 : List RawRow) (h : r1 = r2) :
    validate_data r1 = validate_data r2 := by rw [h]

/-- Witness for C10 at a concrete one-row table. -/
theorem c10_deterministic_witness :
    validate_data [RawRow.normal goodRow] = validate_data [RawRow.normal goodRow] :=
  c10_deterministic [RawRow.normal goodRow] [RawRow.normal goodRow] rfl

/-- C5: the error formatter is total: every pydantic error dictionary is
mapped to exactly one of the four template sentences, and whenever the
diagnostic text matches none of the three specific templates the result is
the generic "Campo '<name>': <capitalized diagnostic>." sentence. -/
theorem c5_formatter_total (e : PydanticError) :
    (format_pydantic_error e = "O campo '" ++ e.loc ++ "' está faltando ou vazio." ∨
     format_pydantic_error e = "O campo '" ++ e.loc ++ "' deve ser um número decimal (ex: 100.50)." ∨
     format_pydantic_error e = "O campo '" ++ e.loc ++ "' deve ser um número inteiro (ex: 100)." ∨
     format_pydantic_error e = "Campo '" ++ e.loc ++ "': " ++ pyCapitalize e.msg ++ ".") ∧
    ((strContains e.msg "field required" = false ∧
      (strContains e.msg "float" = false ∨
        (strContains e.msg "not a valid float" = false ∧
         strContains e.msg "value is not a valid float" = false)) ∧
      (strContains e.msg "int" = false ∨
       strContains e.msg "not a valid integer" = false)) →
     format_pydantic_error e = "Campo '" ++ e.loc ++ "': " ++ pyCapitalize e.msg ++ ".") := by
  constructor
  · unfold format_pydantic_error
    cases h1 : strContains e.msg "field required" <;>
      cases h2 : strContains e.msg "float" <;>
        cases h3 : strContains e.msg "not a valid float" <;>
          cases h4 : strContains e.msg "value is not a valid float" <;>
            cases h5 : strContains e.msg "int" <;>
              cases h6 : strContains e.msg "not a valid integer" <;>
                simp [h1, h2, h3, h4, h5, h6]
  · rintro ⟨h1, h2, h3⟩
    rcases h2 with h2 | ⟨h2a, h2b⟩ <;> rcases h3 with h3 | h3 <;>
      simp [format_pydantic_error, *]

/-- Witness for C5: the out-of-range diagnostic matches no specific
template and falls through to the generic sentence. -/
theorem c5_formatter_total_witness :
    format_pydantic_error
        ⟨"Amount_spent", "ensure this value is greater than or equal to 0.0",
          "value_error.number.not_ge"⟩ =
      "Campo '" ++ "Amount_spent" ++ "': " ++
        pyCapitalize "ensure this value is greater than or equal to 0.0" ++ "." :=
  (c5_formatter_total
    ⟨"Amount_spent", "ensure this value is greater than or equal to 0.0",
      "value_error.number.not_ge"⟩).2 (by decide)

/-- C6: a missing-category error (pydantic's "field required") always
formats to the missing-field sentence for that field; and a row missing
only its required `Date` field yields an error-report entry whose first
error is that sentence for 'Date'. -/
theorem c6_missing_field_template (e : PydanticError)
    (h : e.msg = "field required") :
    format_pydantic_error e = "O campo '" ++ e.loc ++ "' está faltando ou vazio." ∧
    ∀ i : Nat, processRow i (RawRow.normal dateMissingRow) =
      Except.error ⟨i + 2, Value.VStr "X",
        "O campo 'Date' está faltando ou vazio.", 1⟩ := by
  constructor
  · have hc : strContains e.msg "field required" = true := by rw [h]; decide
    simp [format_pydantic_error, hc]
  · intro i
    rfl

/-- Witness for C6 at the concrete 'Date' violation and row. -/
theorem c6_missing_field_template_witness :
    format_pydantic_error ⟨"Date", "field required", "value_error.missing"⟩ =
      "O campo '" ++ "Date" ++ "' está faltando ou vazio." ∧
    processRow 0 (RawRow.normal dateMissingRow) =
      Except.error ⟨2, Value.VStr "X",
        "O campo 'Date' está faltando ou vazio.", 1⟩ := by
  have h := c6_missing_field_template
    ⟨"Date", "field required", "value_error.missing"⟩ rfl
  exact ⟨h.1, h.2 0⟩

/-- C3: a row at pandas index i that fails validation produces exactly one
error-report entry: line number i + 2, label `get('AdSet_name', 'N/A')`,
message the formatter applied to the first error (the error list is built
in field declaration order), count the total number of errors; and the
error report collects exactly these per-row entries in order. -/
theorem c3_error_entry_shape (i : Nat) (row : Row)
    (h : AdPerformanceRecordErrors row ≠ []) :
    processRow i (RawRow.normal row) =
      Except.error ⟨i + 2, rowGetD row "AdSet_name" (Value.VStr "N/A"),
        format_pydantic_error ((AdPerformanceRecordErrors row).headD ⟨"", "", ""⟩),
        (AdPerformanceRecordErrors row).length⟩ ∧
    ∀ rows : List RawRow,
      (validate_data rows).2 =
        (enumFrom 0 rows).filterMap (fun p => errOption (processRow p.1 p.2)) := by
  constructor
  · cases hE : AdPerformanceRecordErrors row with
    | nil => exact absurd hE h
    | cons e es => simp [processRow, hE]
  · intro rows
    exact congrArg Prod.snd (validate_data_aux_eq rows 0)

/-- Witness for C3 at a concrete failing row and index. -/
theorem c3_error_entry_shape_witness :
    processRow 5 (RawRow.normal dateMissingRow) =
      Except.error ⟨7, Value.VStr "X",
        "O campo 'Date' está faltando ou vazio.", 1⟩ :=
  ((c3_error_entry_shape 5 dateMissingRow (by decide)).1).trans (by decide)

/-- Counterexample to C2: `validate_data` appends `record_dict` — the raw
row — to valid_records, not the coerced pydantic object.  On this row the
appended record keeps the undeclared key "Extra" and keeps `Organizador`
as the raw string "12", so it is not the coerced, schema-projected form
(`specValidatedRecord`, written from the spec's words) of the row. -/
theorem c2_counterexample :
    validate_data [RawRow.normal extraFieldRow] = ([extraFieldRow], []) ∧
    rowGet? extraFieldRow "Extra" = some (Value.VStr "x") ∧
    (AdPerformanceRecordFields.map FieldSpec.name).contains "Extra" = false ∧
    rowGet? extraFieldRow "Organizador" = some (Value.VStr "12") ∧
    rowGet? (specValidatedRecord extraFieldRow) "Organizador" = some (Value.VInt 12) ∧
    rowGet? (specValidatedRecord extraFieldRow) "Extra" = none ∧
    extraFieldRow ≠ specValidatedRecord extraFieldRow := by
  refine ⟨rfl, rfl, rfl, rfl, rfl, rfl, by decide⟩

/-- C2 as amended: a row with zero violations is appended to valid_records
as the raw dictionary itself — required fields are guaranteed present, but
values stay uncoerced and undeclared fields are retained (the coerced
pydantic record is discarded). -/
theorem c2_amended_raw_row_appended (i : Nat) (row : Row)
    (h : AdPerformanceRecordErrors row = []) :
    processRow i (RawRow.normal row) = Except.ok row ∧
    ∀ f ∈ AdPerformanceRecordFields, f.required = true →
      (rowGet? row f.name).isSome := by
  constructor
  · simp [processRow, h]
  · intro f hf hreq
    have hfield : validateField f row = [] := by
      unfold AdPerformanceRecordErrors at h
      exact List.flatMap_eq_nil_iff.mp h f hf
    cases hv : rowGet? row f.name with
    | some v => rfl
    | none =>
      exfalso
      have : validateField f row
          = [⟨f.name, "field required", "value_error.missing"⟩] := by
        simp [validateField, hv, hreq]
      rw [this] at hfield
      exact List.cons_ne_nil _ _ hfield

/-- Witness for the amended C2 at a concrete conforming row. -/
theorem c2_amended_raw_row_appended_witness :
    processRow 0 (RawRow.normal goodRow) = Except.ok goodRow ∧
    ∀ f ∈ AdPerformanceRecordFields, f.required = true →
      (rowGet? goodRow f.name).isSome :=
  c2_amended_raw_row_appended 0 goodRow (by decide)

/-- C7: a row whose `Amount_spent` coerces to a negative number gets an
out-of-range (`value_error.number.not_ge`) violation for `Amount_spent`,
and the row is rejected (it produces an error-report entry, not a valid
record). -/
theorem c7_negative_amount_rejected (i : Nat) (row : Row) (v : Value) (q : Rat)
    (hv : rowGet? row "Amount_spent" = some v)
    (hq : floatCoerce v = some q) (hneg : q < 0) :
    (⟨"Amount_spent", "ensure this value is greater than or equal to 0.0",
        "value_error.number.not_ge"⟩ : PydanticError)
      ∈ AdPerformanceRecordErrors row ∧
    ∃ entry, processRow i (RawRow.normal row) = Except.error entry := by
  have hval : validateField ⟨"Amount_spent", true, .float, true⟩ row =
      [⟨"Amount_spent", "ensure this value is greater than or equal to 0.0",
        "value_error.number.not_ge"⟩] := by
    simp [validateField, hv, hq, hneg]
  have hmem : (⟨"Amount_spent", "ensure this value is greater than or equal to 0.0",
      "value_error.number.not_ge"⟩ : PydanticError) ∈ AdPerformanceRecordErrors row := by
    unfold AdPerformanceRecordErrors
    refine List.mem_flatMap.mpr ⟨⟨"Amount_spent", true, .float, true⟩, by decide, ?_⟩
    rw [hval]
    exact List.mem_singleton.mpr rfl
  refine ⟨hmem, ?_⟩
  cases hE : AdPerformanceRecordErrors row with
  | nil => rw [hE] at hmem; exact absurd hmem (List.not_mem_nil _)
  | cons e es =>
    exact ⟨⟨i + 2, rowGetD row "AdSet_name" (Value.VStr "N/A"),
      format_pydantic_error e, es.length + 1⟩, by simp [processRow, hE]⟩

/-- Witness for C7 at the concrete row with `Amount_spent = -5`. -/
theorem c7_negative_amount_rejected_witness :
    (⟨"Amount_spent", "ensure this value is greater than or equal to 0.0",
        "value_error.number.not_ge"⟩ : PydanticError)
      ∈ AdPerformanceRecordErrors negAmountRow ∧
    ∃ entry, processRow 0 (RawRow.normal negAmountRow) = Except.error entry :=
  c7_negative_amount_rejected 0 negAmountRow (Value.VInt (-5)) ((-5 : Int) : Rat)
    rfl rfl (by decide)

/-- C8: a row whose optional `Link_clicks` is present but coercible neither
to int nor to float gets wrong-type violations (`type_error.integer` and
`type_error.float`) for `Link_clicks`, and the row is rejected even though
the field is optional. -/
theorem c8_optional_wrong_type_rejected (i : Nat) (row : Row) (v : Value)
    (hv : rowGet? row "Link_clicks" = some v)
    (hi : intCoerce v = none) (hf : floatCoerce v = none) :
    (⟨"Link_clicks", "value is not a valid integer", "type_error.integer"⟩
        : PydanticError) ∈ AdPerformanceRecordErrors row ∧
    (⟨"Link_clicks", "value is not a valid float", "type_error.float"⟩
        : PydanticError) ∈ AdPerformanceRecordErrors row ∧
    ∃ entry, processRow i (RawRow.normal row) = Except.error entry := by
  have hval : validateField ⟨"Link_clicks", false, .intOrFloat, false⟩ row =
      [⟨"Link_clicks", "value is not a valid integer", "type_error.integer"⟩,
       ⟨"Link_clicks", "value is not a valid float", "type_error.float"⟩] := by
    simp [validateField, hv, hi, hf]
  have hmem1 : (⟨"Link_clicks", "value is not a valid integer",
      "type_error.integer"⟩ : PydanticError) ∈ AdPerformanceRecordErrors row := by
    unfold AdPerformanceRecordErrors
    refine List.mem_flatMap.mpr ⟨⟨"Link_clicks", false, .intOrFloat, false⟩, by decide, ?_⟩
    rw [hval]
    exact List.mem_cons_self _ _
  have hmem2 : (⟨"Link_clicks", "value is not a valid float",
      "type_error.float"⟩ : PydanticError) ∈ AdPerformanceRecordErrors row := by
    unfold AdPerformanceRecordErrors
    refine List.mem_flatMap.mpr ⟨⟨"Link_clicks", false, .intOrFloat, false⟩, by decide, ?_⟩
    rw [hval]
    exact List.mem_cons_of_mem _ (List.mem_cons_self _ _)
  refine ⟨hmem1, hmem2, ?_⟩
  cases hE : AdPerformanceRecordErrors row with
  | nil => rw [hE] at hmem1; exact absurd hmem1 (List.not_mem_nil _)
  | cons e es =>
    exact ⟨⟨i + 2, rowGetD row "AdSet_name" (Value.VStr "N/A"),
      format_pydantic_error e, es.length + 1⟩, by simp [processRow, hE]⟩

/-- Witness for C8 at the concrete row with `Link_clicks = "abc"`. -/
theorem c8_optional_wrong_type_rejected_witness :
    (⟨"Link_clicks", "value is not a valid integer", "type_error.integer"⟩
        : PydanticError) ∈ AdPerformanceRecordErrors badClicksRow ∧
    (⟨"Link_clicks", "value is not a valid float", "type_error.float"⟩
        : PydanticError) ∈ AdPerformanceRecordErrors badClicksRow ∧
    ∃ entry, processRow 0 (RawRow.normal badClicksRow) = Except.error entry :=
  c8_optional_wrong_type_rejected 0 badClicksRow (Value.VStr "abc")
    rfl (by decide) (by decide)
